import Mathlib

/-! # LinuxInterprocessMutex: shared region manager and named mutex

A shallow embedding of `SharedRegion.hpp` (the shared region manager) over an explicit
model of the POSIX shared-memory calls it makes, and of the `LinuxSharedMutex` layer
declared in `SharedMutex.hpp`.

State is passed explicitly: every operation takes the handle and the state of the
shared-memory subsystem and returns the new handle and the new state.
-/

namespace LinuxInterprocessMutex

/-! ## Data model -/

/-- The struct mapped into shared memory (`shared_region_layout`).
`mutex` is `true` when the lock is held, `counter` is the `unsigned int` usage count,
`timestamp` is the `long` creation time in milliseconds. -/
structure shared_region_layout where
  mutex : Bool
  counter : Nat
  timestamp : Int
  deriving DecidableEq

/-- Number of values of `unsigned int`: arithmetic on `counter` is taken modulo this. -/
def UINT_RANGE : Nat := 4294967296

/-- The content of a zero-filled layout: lock free, counter 0, timestamp 0. -/
def zeroLayout : shared_region_layout := ⟨false, 0, 0⟩

/-- The shared-memory subsystem of the host.
* `names n` is the object that the name `n` is bound to (the pseudo-file `/dev/shm/n`);
* `mem i` is the content of object `i`: `none` is an object of length zero (opened but
  not yet sized), `some l` an object of the size of the layout holding `l`;
* `mapped i` counts the live mappings of object `i`, over all processes;
* `next` is the identity the next created object gets. -/
structure ShmOS where
  names : String → Option Nat
  mem : Nat → Option shared_region_layout
  mapped : Nat → Nat
  next : Nat

/-- The outcome of the three system calls that `Create` makes, in the order of the calls:
`shm_open`, `ftruncate`, `mmap`. `Create` tests the first and the last for failure and
discards the result of the second. -/
structure SysResults where
  openOk : Bool
  truncOk : Bool
  mapOk : Bool
  deriving DecidableEq

/-- A subsystem with no object at all. -/
def ShmOS.empty : ShmOS := ⟨fun _ => none, fun _ => none, fun _ => 0, 0⟩

/-- Whether the pseudo-file of `name` exists (`HasFile` of the test drivers). -/
def ShmOS.HasFile (os : ShmOS) (name : String) : Bool := (os.names name).isSome

/-- The layout that a mapping of `name` made now shows once the object has the size of
the layout: the content of the object bound to the name, or the zero-filled layout when
the name is unbound or its object has length zero (the object is then created or sized by
the mapping call sequence, if the sizing call succeeds). -/
def ShmOS.regionOf (os : ShmOS) (name : String) : shared_region_layout :=
  match os.names name with
  | some i =>
    (match os.mem i with
     | some l => l
     | none => zeroLayout)
  | none => zeroLayout

/-- Whether `name` is bound to an object that already has the size of the layout. -/
def ShmOS.sized (os : ShmOS) (name : String) : Bool :=
  match os.names name with
  | some i => (os.mem i).isSome
  | none => false

/-- A store of a whole layout into the object `r` through a mapping of it. -/
def ShmOS.store (os : ShmOS) (r : Nat) (l : shared_region_layout) : ShmOS :=
  { os with mem := fun i => if i = r then some l else os.mem i }

/-! ## The system calls -/

/-- The call `shm_open(name, O_CREAT | O_RDWR, ...)`: on failure nothing changes and the
descriptor is absent (`-1`); otherwise the descriptor refers to the object bound to
`name`, which is created with length zero when the name was unbound. -/
def shm_open (os : ShmOS) (name : String) (ok : Bool) : Option Nat × ShmOS :=
  if ok then
    match os.names name with
    | some i => (some i, os)
    | none =>
      (some os.next,
        { os with
          names := fun n => if n = name then some os.next else os.names n
          mem := fun i => if i = os.next then none else os.mem i
          mapped := fun i => if i = os.next then 0 else os.mapped i
          next := os.next + 1 })
  else (none, os)

/-- The call `ftruncate(fd, sizeof(shared_region_layout))`: on failure nothing changes;
otherwise an object of length zero grows to the size of the layout, the new bytes being
zero, and an object that already has that size keeps its content. -/
def ftruncate (os : ShmOS) (fd : Nat) (ok : Bool) : ShmOS :=
  if ok then
    { os with
      mem := fun i =>
        if i = fd then
          (match os.mem fd with
           | some l => some l
           | none => some zeroLayout)
        else os.mem i }
  else os

/-- The call `mmap(NULL, sizeof(shared_region_layout), ..., MAP_SHARED, fd, 0)`: on
failure (`MAP_FAILED`) nothing changes; otherwise the object gets one more mapping and the
returned address designates it. -/
def mmap (os : ShmOS) (fd : Nat) (ok : Bool) : Option Nat × ShmOS :=
  if ok then
    (some fd, { os with mapped := fun i => if i = fd then os.mapped fd + 1 else os.mapped i })
  else (none, os)

/-- The call `munmap(region, sizeof(shared_region_layout))`: one mapping of the object is
released. -/
def munmap (os : ShmOS) (region : Nat) : ShmOS :=
  { os with mapped := fun i => if i = region then os.mapped region - 1 else os.mapped i }

/-- The call `shm_unlink(name)`: the name is unbound; the object itself stays for the
mappings that still refer to it. -/
def shm_unlink (os : ShmOS) (name : String) : ShmOS :=
  { os with names := fun n => if n = name then none else os.names n }

/-! ## SharedRegion -/

/-- The process-local handle (`class SharedRegion`): `_region` is the mapped address
(`none` is `nullptr`), designating the mapped object. -/
structure SharedRegion where
  _name : String
  _region : Option Nat
  _isCreated : Bool
  deriving DecidableEq

namespace SharedRegion

/-- The constructor `SharedRegion(name)`. -/
def new (name : String) : SharedRegion := ⟨name, none, false⟩

/-- The accessor `Name()`. -/
def Name (self : SharedRegion) : String := self._name

/-- The accessor `IsCreated()`. -/
def IsCreated (self : SharedRegion) : Bool := self._isCreated

/-- The accessor `Get()`: the mapped address when created, else `nullptr`. -/
def Get (self : SharedRegion) : Option Nat :=
  if self._isCreated then self._region else none

/-- The method `Unmap()`. -/
def Unmap (self : SharedRegion) (os : ShmOS) : SharedRegion × ShmOS :=
  match self._region with
  | some r => ({ self with _region := none }, munmap os r)
  | none => (self, os)

/-- The method `Destroy()`. -/
def Destroy (self : SharedRegion) (os : ShmOS) : SharedRegion × ShmOS :=
  let self1 := { self with _isCreated := false }
  let os1 := if self1._region.isSome then shm_unlink os self1._name else os
  self1.Unmap os1

/-- The destructor `~SharedRegion()`. -/
def finalize (self : SharedRegion) (os : ShmOS) : SharedRegion × ShmOS :=
  self.Unmap os

/-- The method `Create()`; the first component is the returned `bool`. The result of
`ftruncate` is discarded, as by `(void)! ftruncate(...)` in the source: whether the sizing
succeeded has no influence on what `Create` does next or returns. Closing the file
descriptor has no effect on the modelled state. -/
def Create (self : SharedRegion) (os : ShmOS) (sys : SysResults) :
    Bool × SharedRegion × ShmOS :=
  let s0 := if self._isCreated then self.Destroy os else (self, os)
  match shm_open s0.2 s0.1._name sys.openOk with
  | (none, os1) => (s0.1._isCreated, s0.1, os1)
  | (some fd, os1) =>
    let os2 := ftruncate os1 fd sys.truncOk
    match mmap os2 fd sys.mapOk with
    | (some r, os3) => (true, { s0.1 with _region := some r, _isCreated := true }, os3)
    | (none, os3) => (s0.1._isCreated, { s0.1 with _region := none }, os3)

/-- What a read of the whole layout through `Get()` yields: absent when `Get()` is
`nullptr` or the mapped object has length zero. -/
def read (self : SharedRegion) (os : ShmOS) : Option shared_region_layout :=
  match self.Get with
  | some r => os.mem r
  | none => none

/-- The assignment `Get()->counter = value` of the test drivers (`SetCounter`); absent
when the access faults. -/
def SetCounter (self : SharedRegion) (os : ShmOS) (value : Nat) : Option ShmOS :=
  match self.Get with
  | some r =>
    (match os.mem r with
     | some l => some (os.store r { l with counter := value })
     | none => none)
  | none => none

/-- The assignment `Get()->timestamp = value` of the test drivers (`SetTimestamp`); absent
when the access faults. -/
def SetTimestamp (self : SharedRegion) (os : ShmOS) (value : Int) : Option ShmOS :=
  match self.Get with
  | some r =>
    (match os.mem r with
     | some l => some (os.store r { l with timestamp := value })
     | none => none)
  | none => none

end SharedRegion

/-! ## LinuxSharedMutex -/

/-- The named mutex (`class LinuxSharedMutex`): `_share` is the owned region handle,
`_locked` the process-local flag. -/
structure LinuxSharedMutex where
  _name : String
  _share : SharedRegion
  _locked : Bool
  deriving DecidableEq

namespace LinuxSharedMutex

/-- Modelled from the spec: the body of `LinuxSharedMutex::HasValidTimestamp`, of which
`SharedMutex.hpp` has the declaration only. The staleness threshold, which the spec leaves
open, and the current time (`MillisecondsNow()`) are parameters. A timestamp is stale when
it is older than the threshold or is the zero sentinel of a zero-filled region, and fresh
otherwise; with no readable layout there is no valid timestamp. -/
def HasValidTimestamp (self : LinuxSharedMutex) (os : ShmOS) (threshold now : Int) : Bool :=
  match self._share.read os with
  | some l => decide (l.timestamp ≠ 0 ∧ now - l.timestamp ≤ threshold)
  | none => false

/-- Modelled from the spec: the constructor `LinuxSharedMutex(name)`, of which
`SharedMutex.hpp` has the declaration only, run at time `now`. It creates or opens the
region through a new `SharedRegion`; a failure to do so is surfaced as an absent mutex.
On a fresh timestamp the counter is incremented and lock and timestamp are left alone; on
a stale one the counter is reset to 1 and the timestamp set to `now`, whatever the state
of the lock. The counter is the layout's `unsigned int`, so the increment wraps. -/
def new (name : String) (threshold now : Int) (os : ShmOS) (sys : SysResults) :
    Option LinuxSharedMutex × ShmOS :=
  match (SharedRegion.new name).Create os sys with
  | (false, _, os1) => (none, os1)
  | (true, share, os1) =>
    let self : LinuxSharedMutex := ⟨name, share, false⟩
    match share.Get, share.read os1 with
    | some r, some l =>
      if self.HasValidTimestamp os1 threshold now then
        (some self, os1.store r { l with counter := (l.counter + 1) % UINT_RANGE })
      else
        (some self, os1.store r { l with counter := 1, timestamp := now })
    | _, _ => (none, os1)

/-- Modelled from the spec: `LinuxSharedMutex::IsLocked`, the process-local flag. -/
def IsLocked (self : LinuxSharedMutex) : Bool := self._locked

/-- Modelled from the spec: `LinuxSharedMutex::Unlock`, of which `SharedMutex.hpp` has the
declaration only: releases the shared lock and clears the local flag, and does nothing
when this instance does not hold the lock. -/
def Unlock (self : LinuxSharedMutex) (os : ShmOS) : LinuxSharedMutex × ShmOS :=
  if self._locked then
    match self._share.Get, self._share.read os with
    | some r, some l => ({ self with _locked := false }, os.store r { l with mutex := false })
    | _, _ => ({ self with _locked := false }, os)
  else (self, os)

/-- Modelled from the spec: `LinuxSharedMutex::Release`, of which `SharedMutex.hpp` has
the declaration only: unlocks if the local flag says held, decrements the shared counter,
and destroys the region when the decremented counter is zero, else only unmaps it. On an
instance with no access to a region (already released) it does no more than the unlock.
The counter is the layout's `unsigned int`, so the decrement wraps. -/
def Release (self : LinuxSharedMutex) (os : ShmOS) : LinuxSharedMutex × ShmOS :=
  let s1 := self.Unlock os
  match s1.1._share.Get, s1.1._share.read s1.2 with
  | some r, some l =>
    let c := (l.counter + UINT_RANGE - 1) % UINT_RANGE
    let os2 := s1.2.store r { l with counter := c }
    let s3 := if c = 0 then s1.1._share.Destroy os2 else s1.1._share.Unmap os2
    ({ s1.1 with _share := s3.1 }, s3.2)
  | _, _ => s1

/-- The layout seen through the region of a constructed mutex; absent when the
construction failed. -/
def attached (r : Option LinuxSharedMutex × ShmOS) : Option shared_region_layout :=
  match r.1 with
  | some m => m._share.read r.2
  | none => none

end LinuxSharedMutex

/-! ## Processes sharing the subsystem -/

/-- Whether the lock in the object `r` is held: the lock field of its layout. -/
def ShmOS.locked (os : ShmOS) (r : Nat) : Bool :=
  match os.mem r with
  | some l => l.mutex
  | none => false

namespace MutexSystem

end MutexSystem

/-! ## Scenarios of the test drivers -/

/-- A handle created and mapped on `SHARE_1` in a subsystem that had no object, with the
subsystem after the creation. -/
def share1 : SharedRegion × ShmOS :=
  ((SharedRegion.new "SHARE_1").Create ShmOS.empty ⟨true, true, true⟩).2

/-- The subsystem of `share1` once the layout `l` has been written into the region, as
the mutex tests prepare a region before they construct a mutex on it. -/
def regionWith (l : shared_region_layout) : ShmOS := share1.2.store 0 l

/-- A mutex attached to `SHARE_1` through a mapping of object 0, not holding the lock: the
mutex that the constructor yields on a subsystem without objects. -/
def mutex1 : LinuxSharedMutex := ⟨"SHARE_1", ⟨"SHARE_1", some 0, true⟩, false⟩

/-- Writes of a counter and a timestamp through a handle (`SetCounter` then
`SetTimestamp`); absent when an access faults. -/
def SharedRegion.SetBoth (self : SharedRegion) (os : ShmOS) (c : Nat) (t : Int) :
    Option ShmOS :=
  (self.SetCounter os c).bind fun os1 => self.SetTimestamp os1 t

/-- Scope 1 of `Test_SingleProcess_NoDestroy_RetainsOldValues`: a new handle creates
`name`, the counter and the timestamp are written through it, and it goes out of scope
without `Destroy`. The result is the subsystem left behind; absent when an access
faults. -/
def writeAndDrop (name : String) (os : ShmOS) (sys : SysResults) (c : Nat) (t : Int) :
    Option ShmOS :=
  let s := (SharedRegion.new name).Create os sys
  (s.2.1.SetBoth s.2.2 c t).map fun os1 => (s.2.1.finalize os1).2

/-- A second handle created and mapped on `SHARE_1` while the handle of `share1` holds its
mapping, with the subsystem after that creation: the two handles of the two-process
tests. -/
def share2 : SharedRegion × ShmOS :=
  ((SharedRegion.new "SHARE_1").Create share1.2 ⟨true, true, true⟩).2

/-- The counter and the timestamp of a layout read through a handle. -/
def SharedRegion.values (self : SharedRegion) (os : ShmOS) : Option (Nat × Int) :=
  (self.read os).map fun l => (l.counter, l.timestamp)

/-! ## Facts about `SharedRegion` -/

/-- `Create` returns `true` exactly when both the open and the map step succeed. -/
theorem Create_ret_iff (self : SharedRegion) (os : ShmOS) (sys : SysResults) :
    (self.Create os sys).1 = true ↔ sys.openOk = true ∧ sys.mapOk = true := by
  obtain ⟨name, region, created⟩ := self
  obtain ⟨openOk, truncOk, mapOk⟩ := sys
  cases created <;> cases openOk <;> cases truncOk <;> cases mapOk <;> cases region <;>
    cases h : os.names name <;>
    simp_all [SharedRegion.Create, SharedRegion.Destroy, SharedRegion.Unmap, shm_open,
      ftruncate, mmap, munmap, shm_unlink]

/-- C5 as stated fails. A handle created and mapped on `SHARE_1` calls `Create` again and
the open step fails: `Create` returns `false`, but the backing object that existed before
the call has been unlinked by the re-creation guard. And a new handle calls `Create` on
the unbound name `SHARE_1`, the open step succeeds and the map step fails: `Create`
returns `false`, and the object made by the open step exists afterwards. -/
theorem Create_failure_unlinks_mapped_name :
    ((share1.1.Create share1.2 ⟨false, true, true⟩).1 = false ∧
        share1.2.HasFile "SHARE_1" = true ∧
        (share1.1.Create share1.2 ⟨false, true, true⟩).2.2.HasFile "SHARE_1" = false) ∧
      (((SharedRegion.new "SHARE_1").Create ShmOS.empty ⟨true, true, false⟩).1 = false ∧
        ShmOS.empty.HasFile "SHARE_1" = false ∧
        ((SharedRegion.new "SHARE_1").Create ShmOS.empty ⟨true, true, false⟩).2.2.HasFile "SHARE_1"
          = true) := by
  decide

/-- C5 amended: if `Create` returns `false`, the handle is not created and `Get` is absent,
and every name other than the handle's own is bound as before. If the handle was not
created or held no mapping at the call, nothing is unlinked: an object bound to its name
before is still bound to it, and when the open step failed the namespace is the same as
before. If the handle was created and held a mapping, the re-creation guard has unlinked
its name, which is unbound when the open step failed. -/
theorem Create_failure_effects (self : SharedRegion) (os : ShmOS) (sys : SysResults)
    (hret : (self.Create os sys).1 = false) :
    (self.Create os sys).2.1.IsCreated = false ∧
      (self.Create os sys).2.1.Get = none ∧
      (∀ n, n ≠ self._name → (self.Create os sys).2.2.names n = os.names n) ∧
      ((self._isCreated = false ∨ self._region = none) →
        (∀ i, os.names self._name = some i →
            (self.Create os sys).2.2.names self._name = some i) ∧
          (sys.openOk = false → (self.Create os sys).2.2.names = os.names)) ∧
      ((self._isCreated = true ∧ self._region.isSome = true) →
        sys.openOk = false → (self.Create os sys).2.2.names self._name = none) := by
  obtain ⟨name, region, created⟩ := self
  obtain ⟨openOk, truncOk, mapOk⟩ := sys
  cases created <;> cases openOk <;> cases truncOk <;> cases mapOk <;> cases region <;>
    cases h : os.names name <;>
    simp [SharedRegion.Create, SharedRegion.Destroy, SharedRegion.Unmap, shm_open,
      ftruncate, mmap, munmap, shm_unlink, SharedRegion.IsCreated, SharedRegion.Get, h]
      at hret ⊢ <;>
    intro n hn <;> simp [hn]

/-- Witness of C5 amended: a new handle on `SHARE_1` in a subsystem without objects, with
a failing open step. -/
theorem Create_failure_effects_witness :
    ((SharedRegion.new "SHARE_1").Create ShmOS.empty ⟨false, true, true⟩).1 = false ∧
      ((SharedRegion.new "SHARE_1").Create ShmOS.empty ⟨false, true, true⟩).2.1.Get = none ∧
      ((SharedRegion.new "SHARE_1").Create ShmOS.empty ⟨false, true, true⟩).2.2.names
        = ShmOS.empty.names :=
  have h := Create_failure_effects (SharedRegion.new "SHARE_1") ShmOS.empty ⟨false, true, true⟩
    (by decide)
  ⟨by decide, h.2.1, (h.2.2.2.1 (Or.inl rfl)).2 rfl⟩

/-- C6: for every handle that holds a mapping (of an object `r`), `Destroy` unbinds the
handle's name, releases the mapping (the handle's address is null and the object has one
mapping less), and marks the handle not created: `IsCreated` is false and `Get` absent. -/
theorem Destroy_of_mapped (self : SharedRegion) (os : ShmOS) (r : Nat)
    (hmapped : self._region = some r) :
    (self.Destroy os).2.names self._name = none ∧
      (self.Destroy os).2.HasFile self._name = false ∧
      (self.Destroy os).1._region = none ∧
      (self.Destroy os).2.mapped r = os.mapped r - 1 ∧
      (self.Destroy os).1.IsCreated = false ∧
      (self.Destroy os).1.Get = none := by
  obtain ⟨name, region, created⟩ := self
  simp only at hmapped
  subst hmapped
  simp [SharedRegion.Destroy, SharedRegion.Unmap, munmap, shm_unlink, ShmOS.HasFile,
    SharedRegion.IsCreated, SharedRegion.Get]

/-- Witness of C6: the handle created and mapped on `SHARE_1`. -/
theorem Destroy_of_mapped_witness :
    share1.1._region = some 0 ∧ share1.2.HasFile "SHARE_1" = true ∧
      (share1.1.Destroy share1.2).2.HasFile "SHARE_1" = false ∧
      (share1.1.Destroy share1.2).1.Get = none :=
  have h := Destroy_of_mapped share1.1 share1.2 0 (by decide)
  ⟨by decide, by decide, h.2.1, h.2.2.2.2.2⟩

/-- C7 as stated fails: the handle created and mapped on `SHARE_1` is unmapped and then
destroyed. The backing object exists before `Destroy` and still exists after it. -/
theorem Destroy_after_Unmap_keeps_object :
    (share1.1.Unmap share1.2).2.HasFile "SHARE_1" = true ∧
      ((share1.1.Unmap share1.2).1.Destroy (share1.1.Unmap share1.2).2).2.HasFile "SHARE_1"
        = true := by
  decide

/-- C7 amended: for every handle state, after `Destroy` the handle is not created and
holds no mapping. If the handle held a mapping, no backing object with its name exists
afterwards. If it held none (never mapped, or released by `Unmap`), `Destroy` leaves the
namespace as it was, so a backing object of that name that existed still exists. -/
theorem Destroy_effects (self : SharedRegion) (os : ShmOS) :
    (self.Destroy os).1.IsCreated = false ∧
      (self.Destroy os).1._region = none ∧
      (self.Destroy os).1.Get = none ∧
      (self._region.isSome = true → (self.Destroy os).2.HasFile self._name = false) ∧
      (self._region = none → (self.Destroy os).2.names = os.names) := by
  obtain ⟨name, region, created⟩ := self
  cases region <;>
    simp [SharedRegion.Destroy, SharedRegion.Unmap, munmap, shm_unlink, ShmOS.HasFile,
      SharedRegion.IsCreated, SharedRegion.Get]

/-- C9: tearing a handle down by its destructor, which only unmaps, leaves every name
bound as before and every object with the content it had. So when a first handle creates
`name`, a counter `c` and a timestamp `t` are written through it, and it is torn down
without `Destroy`, the backing object is still there and a new handle whose `Create` of the
same name returns `true` reads counter `c` and timestamp `t`, whatever the outcome of the
sizing step of that second `Create`. The writes through the first handle do go through
when its `Create` returned `true` and its region has the size of the layout: the sizing
step succeeded, or the name was bound to an object of that size already. -/
theorem finalize_retains_values (name : String) (os : ShmOS) (sys1 sys2 : SysResults)
    (c : Nat) (t : Int) (hret1 : ((SharedRegion.new name).Create os sys1).1 = true) :
    (∀ (h : SharedRegion) (o : ShmOS),
        (h.finalize o).2.names = o.names ∧ (h.finalize o).2.mem = o.mem) ∧
      ((sys1.truncOk = true ∨ os.sized name = true) →
        (writeAndDrop name os sys1 c t).isSome = true) ∧
      ∀ os1, writeAndDrop name os sys1 c t = some os1 →
        os1.HasFile name = true ∧
          (((SharedRegion.new name).Create os1 sys2).1 = true →
            ((SharedRegion.new name).Create os1 sys2).2.1.values
              ((SharedRegion.new name).Create os1 sys2).2.2 = some (c, t)) := by
  refine ⟨fun h o => ?_, ?_⟩
  · cases hr : h._region <;> simp [SharedRegion.finalize, SharedRegion.Unmap, munmap, hr]
  have h1 := (Create_ret_iff _ _ _).1 hret1
  obtain ⟨open1, trunc1, map1⟩ := sys1
  obtain ⟨open2, trunc2, map2⟩ := sys2
  simp only at h1
  obtain ⟨rfl, rfl⟩ := h1
  cases h : os.names name with
  | none =>
    cases trunc1 <;> cases open2 <;> cases trunc2 <;> cases map2 <;>
      simp [writeAndDrop, SharedRegion.SetBoth, SharedRegion.SetCounter,
        SharedRegion.SetTimestamp, SharedRegion.finalize, SharedRegion.Unmap,
        SharedRegion.Create, SharedRegion.new, shm_open, ftruncate, mmap, munmap,
        SharedRegion.Get, SharedRegion.read, SharedRegion.values, ShmOS.store,
        ShmOS.HasFile, ShmOS.sized, h]
  | some i =>
    cases hm : os.mem i <;> cases trunc1 <;> cases open2 <;> cases trunc2 <;> cases map2 <;>
      simp [writeAndDrop, SharedRegion.SetBoth, SharedRegion.SetCounter,
        SharedRegion.SetTimestamp, SharedRegion.finalize, SharedRegion.Unmap,
        SharedRegion.Create, SharedRegion.new, shm_open, ftruncate, mmap, munmap,
        SharedRegion.Get, SharedRegion.read, SharedRegion.values, ShmOS.store,
        ShmOS.HasFile, ShmOS.sized, h, hm]

/-- Witness of C9: `Test_SingleProcess_NoDestroy_RetainsOldValues`, on `SHARE_1` in a
subsystem without objects, with counter 1234 and timestamp 999999; the second `Create`
reads them back even when its own sizing step fails. -/
theorem finalize_retains_values_witness :
    ((SharedRegion.new "SHARE_1").Create ShmOS.empty ⟨true, true, true⟩).1 = true ∧
      (writeAndDrop "SHARE_1" ShmOS.empty ⟨true, true, true⟩ 1234 999999).isSome = true ∧
      (match writeAndDrop "SHARE_1" ShmOS.empty ⟨true, true, true⟩ 1234 999999 with
        | some os1 =>
          ((SharedRegion.new "SHARE_1").Create os1 ⟨true, false, true⟩).2.1.values
            ((SharedRegion.new "SHARE_1").Create os1 ⟨true, false, true⟩).2.2
        | none => none) = some (1234, 999999) := by
  have h := finalize_retains_values "SHARE_1" ShmOS.empty ⟨true, true, true⟩
    ⟨true, false, true⟩ 1234 999999 (by decide)
  refine ⟨by decide, h.2.1 (Or.inl rfl), ?_⟩
  cases hw : writeAndDrop "SHARE_1" ShmOS.empty ⟨true, true, true⟩ 1234 999999 with
  | none => rw [hw] at h; exact absurd (h.2.1 (Or.inl rfl)) (by decide)
  | some os1 => exact (h.2.2 os1 hw).2 ((Create_ret_iff _ _ _).2 ⟨rfl, rfl⟩)

/-- C11: for every handle state (never mapped, mapped, already unmapped), after `Unmap`
the handle holds no mapping and `Get` is absent; every name is bound as before and every
object has the content it had; a mapping that the handle held is released and a handle
that held none is left as it was, with the subsystem; and a second `Unmap` yields exactly
the handle and the subsystem that the first one left. -/
theorem Unmap_idempotent (self : SharedRegion) (os : ShmOS) :
    (self.Unmap os).1._region = none ∧
      (self.Unmap os).1.Get = none ∧
      (self.Unmap os).2.names = os.names ∧
      (self.Unmap os).2.mem = os.mem ∧
      (∀ r, self._region = some r → (self.Unmap os).2.mapped r = os.mapped r - 1) ∧
      (self._region = none → self.Unmap os = (self, os)) ∧
      (self.Unmap os).1.Unmap (self.Unmap os).2 = self.Unmap os := by
  obtain ⟨name, region, created⟩ := self
  cases region <;> cases created <;>
    simp [SharedRegion.Unmap, SharedRegion.Get, munmap]

/-- C12: two handles `A` and `B` are mapped onto the same backing object `r`, which holds
the layout `l`. `Destroy` through `B` acts on `B` and on the subsystem only, so the state
of `A` is what it was: created, with `Get` present. The layout read through `A` after the
`Destroy` is still `l`, so counter and timestamp are what they were before, and of the two
mappings of the object one is still live. -/
theorem Destroy_leaves_other_mapping (A B : SharedRegion) (os : ShmOS) (r : Nat)
    (l : shared_region_layout)
    (hA : A.Get = some r) (hB : B._region = some r) (hmem : os.mem r = some l) :
    A.IsCreated = true ∧
      A.Get = some r ∧
      A.read (B.Destroy os).2 = some l ∧
      A.values (B.Destroy os).2 = some (l.counter, l.timestamp) ∧
      A.values (B.Destroy os).2 = A.values os ∧
      (B.Destroy os).2.mem = os.mem ∧
      (2 ≤ os.mapped r → 1 ≤ (B.Destroy os).2.mapped r) := by
  obtain ⟨aname, aregion, acreated⟩ := A
  obtain ⟨bname, bregion, bcreated⟩ := B
  simp only at hB
  subst hB
  cases acreated <;> simp [SharedRegion.Get] at hA
  subst hA
  simp [SharedRegion.Destroy, SharedRegion.Unmap, shm_unlink, munmap, SharedRegion.Get,
    SharedRegion.read, SharedRegion.values, SharedRegion.IsCreated, hmem]
  omega

/-- Witness of C12: `Test_TwoProcesses_WhenOneUnlinks_OtherUnaffected`, two handles mapped
on `SHARE_1`, counter 1234 and timestamp 999999 in the region, `Destroy` through the
second handle. -/
theorem Destroy_leaves_other_mapping_witness :
    share1.1.Get = some 0 ∧ share2.1.Get = some 0 ∧
      ((share2.1.Destroy (share2.2.store 0 ⟨false, 1234, 999999⟩)).2.HasFile "SHARE_1"
        = false) ∧
      share1.1.values (share2.1.Destroy (share2.2.store 0 ⟨false, 1234, 999999⟩)).2
        = some (1234, 999999) :=
  ⟨by decide, by decide, by decide,
    (Destroy_leaves_other_mapping share1.1 share2.1 (share2.2.store 0 ⟨false, 1234, 999999⟩)
      0 ⟨false, 1234, 999999⟩ (by decide) (by decide) (by decide)).2.2.2.1⟩

/-- A handle that holds a mapping is created: this holds of a new handle and is kept by
`Create`, `Unmap` and `Destroy`. -/
theorem mapped_implies_created (self : SharedRegion) (os : ShmOS) (sys : SysResults)
    (name : String)
    (h : self._region.isSome = true → self._isCreated = true) :
    ((SharedRegion.new name)._region.isSome = true →
        (SharedRegion.new name)._isCreated = true) ∧
      ((self.Create os sys).2.1._region.isSome = true →
        (self.Create os sys).2.1._isCreated = true) ∧
      ((self.Unmap os).1._region.isSome = true → (self.Unmap os).1._isCreated = true) ∧
      ((self.Destroy os).1._region.isSome = true →
        (self.Destroy os).1._isCreated = true) := by
  obtain ⟨sname, region, created⟩ := self
  obtain ⟨openOk, truncOk, mapOk⟩ := sys
  cases created <;> cases openOk <;> cases truncOk <;> cases mapOk <;> cases region <;>
    cases hn : os.names sname <;>
    simp [SharedRegion.Create, SharedRegion.Destroy, SharedRegion.Unmap,
      SharedRegion.new, shm_open, ftruncate, mmap, munmap, shm_unlink, hn] at h ⊢

/-- The result of `Create` on an unbound name by a handle without a mapping, when both
system calls succeed: a new zero-filled object with one mapping is bound to the name. -/
theorem Create_unbound_fields (name : String) (created : Bool) (os : ShmOS)
    (hname : os.names name = none) :
    ((⟨name, none, created⟩ : SharedRegion).Create os ⟨true, true, true⟩).1 = true ∧
      ((⟨name, none, created⟩ : SharedRegion).Create os ⟨true, true, true⟩).2.1
        = ⟨name, some os.next, true⟩ ∧
      ((⟨name, none, created⟩ : SharedRegion).Create os ⟨true, true, true⟩).2.2.names
        = (fun n => if n = name then some os.next else os.names n) ∧
      ((⟨name, none, created⟩ : SharedRegion).Create os ⟨true, true, true⟩).2.2.mem
        = (fun i => if i = os.next then some zeroLayout else os.mem i) ∧
      ((⟨name, none, created⟩ : SharedRegion).Create os ⟨true, true, true⟩).2.2.mapped
        = (fun i => if i = os.next then 1 else os.mapped i) ∧
      ((⟨name, none, created⟩ : SharedRegion).Create os ⟨true, true, true⟩).2.2.next
        = os.next + 1 := by
  cases created <;>
    simp [SharedRegion.Create, SharedRegion.Destroy, SharedRegion.Unmap, shm_open,
      ftruncate, mmap, hname] <;>
    refine ⟨?_, ?_⟩ <;> funext i <;> split_ifs <;> simp_all

/-- The result of `Create` by a created handle that holds a mapping of `r`, when both
system calls succeed: the name is unlinked and the mapping released, then a new
zero-filled object with one mapping is bound to the name. -/
theorem Create_mapped_fields (name : String) (r : Nat) (os : ShmOS) :
    ((⟨name, some r, true⟩ : SharedRegion).Create os ⟨true, true, true⟩).1 = true ∧
      ((⟨name, some r, true⟩ : SharedRegion).Create os ⟨true, true, true⟩).2.1
        = ⟨name, some os.next, true⟩ ∧
      ((⟨name, some r, true⟩ : SharedRegion).Create os ⟨true, true, true⟩).2.2.names
        = (fun n => if n = name then some os.next else os.names n) ∧
      ((⟨name, some r, true⟩ : SharedRegion).Create os ⟨true, true, true⟩).2.2.mem
        = (fun i => if i = os.next then some zeroLayout else os.mem i) ∧
      ((⟨name, some r, true⟩ : SharedRegion).Create os ⟨true, true, true⟩).2.2.mapped
        = (fun i => if i = os.next then 1
            else if i = r then os.mapped r - 1 else os.mapped i) ∧
      ((⟨name, some r, true⟩ : SharedRegion).Create os ⟨true, true, true⟩).2.2.next
        = os.next + 1 := by
  simp [SharedRegion.Create, SharedRegion.Destroy, SharedRegion.Unmap, shm_open,
    shm_unlink, munmap, ftruncate, mmap]
  refine ⟨?_, ?_, ?_⟩ <;> funext i <;> split_ifs <;> simp_all

/-- C13: `Create` on a handle that already has a mapping (of an object `r`; such a handle
is created) is the `Destroy` sequence followed by the opening and mapping of a handle
that is not created: the name is unlinked, the mapping released and the handle marked not
created before the open step. And starting from an unbound name and a handle without a
mapping, with every system call succeeding, `Create` followed by `Create` leaves what a
single `Create` leaves: both return `true`, the handle is created, it maps the object
bound to its name, that object is zero-filled and has exactly one mapping, every other
name is bound as before, and the mapping made by the first `Create` is released. The two
objects are distinct: the first one is unlinked by the second `Create`. -/
theorem Create_again_recreates (self : SharedRegion) (os : ShmOS)
    (hname : os.names self._name = none) (hnomap : self._region = none) :
    (∀ (h : SharedRegion) (o : ShmOS) (s : SysResults) (r : Nat),
        (h._region.isSome = true → h._isCreated = true) → h._region = some r →
        h.Create o s = (h.Destroy o).1.Create (h.Destroy o).2 s ∧
          (h.Destroy o).2.names h._name = none ∧
          (h.Destroy o).2.mapped r = o.mapped r - 1 ∧
          (h.Destroy o).1._region = none ∧
          (h.Destroy o).1._isCreated = false) ∧
      (self.Create os ⟨true, true, true⟩).1 = true ∧
      ((self.Create os ⟨true, true, true⟩).2.1.Create (self.Create os ⟨true, true, true⟩).2.2
        ⟨true, true, true⟩).1 = true ∧
      (self.Create os ⟨true, true, true⟩).2.1 = ⟨self._name, some os.next, true⟩ ∧
      ((self.Create os ⟨true, true, true⟩).2.1.Create (self.Create os ⟨true, true, true⟩).2.2
        ⟨true, true, true⟩).2.1 = ⟨self._name, some (os.next + 1), true⟩ ∧
      (self.Create os ⟨true, true, true⟩).2.2.names self._name = some os.next ∧
      ((self.Create os ⟨true, true, true⟩).2.1.Create (self.Create os ⟨true, true, true⟩).2.2
        ⟨true, true, true⟩).2.2.names self._name = some (os.next + 1) ∧
      (self.Create os ⟨true, true, true⟩).2.2.mem os.next = some zeroLayout ∧
      ((self.Create os ⟨true, true, true⟩).2.1.Create (self.Create os ⟨true, true, true⟩).2.2
        ⟨true, true, true⟩).2.2.mem (os.next + 1) = some zeroLayout ∧
      (self.Create os ⟨true, true, true⟩).2.2.mapped os.next = 1 ∧
      ((self.Create os ⟨true, true, true⟩).2.1.Create (self.Create os ⟨true, true, true⟩).2.2
        ⟨true, true, true⟩).2.2.mapped (os.next + 1) = 1 ∧
      ((self.Create os ⟨true, true, true⟩).2.1.Create (self.Create os ⟨true, true, true⟩).2.2
        ⟨true, true, true⟩).2.2.mapped os.next = 0 ∧
      (∀ n, n ≠ self._name →
        (self.Create os ⟨true, true, true⟩).2.2.names n = os.names n ∧
          ((self.Create os ⟨true, true, true⟩).2.1.Create (self.Create os ⟨true, true, true⟩).2.2
            ⟨true, true, true⟩).2.2.names n = os.names n) := by
  refine ⟨?_, ?_⟩
  · intro h o s r hwf hr
    obtain ⟨hname2, hregion, hcreated⟩ := h
    simp only at hr
    subst hr
    have hc : hcreated = true := hwf rfl
    subst hc
    simp [SharedRegion.Create, SharedRegion.Destroy, SharedRegion.Unmap, shm_unlink, munmap]
  · obtain ⟨name, region, created⟩ := self
    simp only at hname hnomap
    subst hnomap
    obtain ⟨a1, a2, a3, a4, a5, a6⟩ := Create_unbound_fields name created os hname
    obtain ⟨b1, b2, b3, b4, b5, _⟩ := Create_mapped_fields name os.next
      ((⟨name, none, created⟩ : SharedRegion).Create os ⟨true, true, true⟩).2.2
    rw [a6] at b2 b3 b4 b5
    simp only [a2]
    simp only [a1, b1, b2, b3, b4, b5, a3, a4, a5]
    simp
    intro n hn
    simp [hn]

/-- Witness of C13: a new handle on `SHARE_1` in a subsystem without objects calls
`Create` twice. Afterwards it is created, the name is bound to the second object, which
is zero-filled and has one mapping, and the first object has no mapping left. -/
theorem Create_again_recreates_witness :
    ShmOS.empty.names "SHARE_1" = none ∧
      (share1.1.Create share1.2 ⟨true, true, true⟩).1 = true ∧
      (share1.1.Create share1.2 ⟨true, true, true⟩).2.1 = ⟨"SHARE_1", some 1, true⟩ ∧
      (share1.1.Create share1.2 ⟨true, true, true⟩).2.2.names "SHARE_1" = some 1 ∧
      (share1.1.Create share1.2 ⟨true, true, true⟩).2.2.mem 1 = some zeroLayout ∧
      (share1.1.Create share1.2 ⟨true, true, true⟩).2.2.mapped 1 = 1 ∧
      (share1.1.Create share1.2 ⟨true, true, true⟩).2.2.mapped 0 = 0 := by
  obtain ⟨_, _, c2, _, c4, _, c6, _, c8, _, c10, c11, _⟩ :=
    Create_again_recreates (SharedRegion.new "SHARE_1") ShmOS.empty rfl rfl
  exact ⟨rfl, c2, c4, c6, c8, c10, c11⟩

/-! ## Facts about `LinuxSharedMutex` -/

/-- C1: a mutex is constructed at time `now` on a name whose region (the layout `l` its
mapping shows: the existing content, or the zero-filled layout of a region just created)
has a timestamp that is the zero sentinel or older than the threshold. When the system
calls succeed (the open and the map step, and the sizing step unless the name is bound
to an object that has the size of the layout already), the construction succeeds and
afterwards the shared counter is 1 and the shared timestamp is `now`, whatever the counter
and the lock of `l` were; the lock is left as it was. -/
theorem new_on_stale_region_resets (name : String) (threshold now : Int) (os : ShmOS)
    (sys : SysResults) (l : shared_region_layout)
    (hopen : sys.openOk = true) (hmap : sys.mapOk = true)
    (htrunc : sys.truncOk = true ∨ os.sized name = true)
    (hprior : os.regionOf name = l)
    (hstale : l.timestamp = 0 ∨ threshold < now - l.timestamp) :
    LinuxSharedMutex.attached (LinuxSharedMutex.new name threshold now os sys)
      = some ⟨l.mutex, 1, now⟩ := by
  obtain ⟨openOk, truncOk, mapOk⟩ := sys
  simp only at hopen hmap htrunc
  subst hopen hmap
  subst hprior
  have hnot : ¬ ((os.regionOf name).timestamp ≠ 0 ∧
      now - (os.regionOf name).timestamp ≤ threshold) := by
    rintro ⟨h0, hle⟩
    rcases hstale with h | h
    · exact h0 h
    · exact absurd hle (not_le.mpr h)
  cases h : os.names name with
  | none =>
    have ht : truncOk = true := by simpa [ShmOS.sized, h] using htrunc
    subst ht
    simp [ShmOS.regionOf, h, zeroLayout] at hnot ⊢
    simp [LinuxSharedMutex.new, LinuxSharedMutex.attached,
      LinuxSharedMutex.HasValidTimestamp, SharedRegion.Create, SharedRegion.new, shm_open,
      ftruncate, mmap, SharedRegion.Get, SharedRegion.read, ShmOS.store, h, zeroLayout]
  | some i =>
    cases hm : os.mem i with
    | none =>
      have ht : truncOk = true := by simpa [ShmOS.sized, h, hm] using htrunc
      subst ht
      simp [ShmOS.regionOf, h, hm, zeroLayout] at hnot ⊢
      simp [LinuxSharedMutex.new, LinuxSharedMutex.attached,
        LinuxSharedMutex.HasValidTimestamp, SharedRegion.Create, SharedRegion.new, shm_open,
        ftruncate, mmap, SharedRegion.Get, SharedRegion.read, ShmOS.store, h, hm, zeroLayout]
    | some l =>
      simp only [ShmOS.regionOf, h, hm] at hnot ⊢
      have hnot2 : ¬ (¬ l.timestamp = 0 ∧ now ≤ threshold + l.timestamp) :=
        fun ⟨a, b⟩ => hnot ⟨a, by linarith⟩
      cases truncOk <;>
        simp [LinuxSharedMutex.new, LinuxSharedMutex.attached,
          LinuxSharedMutex.HasValidTimestamp, SharedRegion.Create, SharedRegion.new,
          shm_open, ftruncate, mmap, SharedRegion.Get, SharedRegion.read, ShmOS.store, h,
          hm, hnot2]

/-- Witness of C1: `Test_SingleMutex_CreateStaleTimestamp_CreatesNewShare`, a region
with a held lock, counter 1234 and a timestamp one hour before `now`, under a threshold of
one minute. -/
theorem new_on_stale_region_resets_witness :
    (regionWith ⟨true, 1234, 400000⟩).regionOf "SHARE_1" = ⟨true, 1234, 400000⟩ ∧
      LinuxSharedMutex.attached
        (LinuxSharedMutex.new "SHARE_1" 60000 4000000 (regionWith ⟨true, 1234, 400000⟩)
          ⟨true, true, true⟩) = some ⟨true, 1, 4000000⟩ :=
  ⟨by decide,
    new_on_stale_region_resets "SHARE_1" 60000 4000000 (regionWith ⟨true, 1234, 400000⟩)
      ⟨true, true, true⟩ ⟨true, 1234, 400000⟩ rfl rfl (Or.inl rfl) (by decide)
      (Or.inr (by decide))⟩

/-- C2: a mutex is constructed at time `now` on a name bound to a region whose layout `l`
has a fresh timestamp `t` (not the zero sentinel and not older than the threshold). When
the system calls succeed, the construction succeeds and reuses the region: the name stays
bound to the same object, the counter is `c + 1` in the arithmetic of `unsigned int`
(`c + 1` below the maximum), and timestamp and lock are as before. -/
theorem new_on_fresh_region_reuses (name : String) (threshold now : Int) (os : ShmOS)
    (sys : SysResults) (i : Nat) (l : shared_region_layout)
    (hopen : sys.openOk = true) (hmap : sys.mapOk = true)
    (hname : os.names name = some i) (hmem : os.mem i = some l)
    (hfresh : l.timestamp ≠ 0 ∧ now - l.timestamp ≤ threshold) :
    LinuxSharedMutex.attached (LinuxSharedMutex.new name threshold now os sys)
        = some ⟨l.mutex, (l.counter + 1) % UINT_RANGE, l.timestamp⟩ ∧
      (LinuxSharedMutex.new name threshold now os sys).2.names name = some i ∧
      (l.counter + 1 < UINT_RANGE → (l.counter + 1) % UINT_RANGE = l.counter + 1) := by
  obtain ⟨openOk, truncOk, mapOk⟩ := sys
  simp only at hopen hmap
  subst hopen hmap
  have hf2 : ¬ l.timestamp = 0 ∧ now ≤ threshold + l.timestamp :=
    ⟨hfresh.1, by linarith [hfresh.2]⟩
  refine ⟨?_, ?_, fun h => Nat.mod_eq_of_lt h⟩ <;> cases truncOk <;>
    simp [LinuxSharedMutex.new, LinuxSharedMutex.attached,
      LinuxSharedMutex.HasValidTimestamp, SharedRegion.Create, SharedRegion.new, shm_open,
      ftruncate, mmap, SharedRegion.Get, SharedRegion.read, ShmOS.store, hname, hmem, hf2]

/-- Witness of C2: `Test_SingleMutex_CreateValidTimestamp_ReusesSharedRegion`, a region
with counter 1234 and a timestamp twenty seconds before `now`, under a threshold of one
minute. -/
theorem new_on_fresh_region_reuses_witness :
    (regionWith ⟨false, 1234, 3980000⟩).names "SHARE_1" = some 0 ∧
      LinuxSharedMutex.attached
        (LinuxSharedMutex.new "SHARE_1" 60000 4000000 (regionWith ⟨false, 1234, 3980000⟩)
          ⟨true, true, true⟩) = some ⟨false, 1235, 3980000⟩ :=
  ⟨by decide,
    (new_on_fresh_region_reuses "SHARE_1" 60000 4000000 (regionWith ⟨false, 1234, 3980000⟩)
      ⟨true, true, true⟩ 0 ⟨false, 1234, 3980000⟩ rfl rfl (by decide) (by decide)
      (by decide)).1⟩

/-- C3: `Release` on a mutex attached to a region with counter `c` stores the decremented
counter and deletes the backing object exactly when the decremented counter is zero: the
pseudo-file of the name exists afterwards if and only if the decremented counter is not
zero and it existed before. When `c` was 1 the counter is 0 and no backing object of the
name exists afterwards; when `c` was 2 or more the counter is `c - 1` and the namespace is
as before, so the backing object still exists. -/
theorem Release_deletes_iff_last (m : LinuxSharedMutex) (os : ShmOS) (r : Nat)
    (l : shared_region_layout)
    (hget : m._share.Get = some r) (hmem : os.mem r = some l)
    (hrange : l.counter < UINT_RANGE) :
    ((m.Release os).2.mem r).map (fun x => x.counter)
        = some ((l.counter + UINT_RANGE - 1) % UINT_RANGE) ∧
      ((m.Release os).2.HasFile m._share._name = true ↔
        (l.counter + UINT_RANGE - 1) % UINT_RANGE ≠ 0 ∧ os.HasFile m._share._name = true) ∧
      (l.counter = 1 →
        ((m.Release os).2.mem r).map (fun x => x.counter) = some 0 ∧
          (m.Release os).2.HasFile m._share._name = false) ∧
      (2 ≤ l.counter →
        ((m.Release os).2.mem r).map (fun x => x.counter) = some (l.counter - 1) ∧
          (m.Release os).2.names = os.names) := by
  obtain ⟨mname, ⟨name, region, created⟩, locked⟩ := m
  cases created <;> simp [SharedRegion.Get] at hget
  subst hget
  have hone : l.counter = 1 → (l.counter + UINT_RANGE - 1) % UINT_RANGE = 0 := by
    intro h; rw [h]; decide
  have htwo : 2 ≤ l.counter → (l.counter + UINT_RANGE - 1) % UINT_RANGE = l.counter - 1 := by
    intro h
    have : l.counter + UINT_RANGE - 1 = (l.counter - 1) + UINT_RANGE := by omega
    rw [this, Nat.add_mod_right]
    exact Nat.mod_eq_of_lt (by omega)
  by_cases hd : (l.counter + UINT_RANGE - 1) % UINT_RANGE = 0
  · have hlt : ¬ 2 ≤ l.counter := by
      intro h; rw [htwo h] at hd; omega
    cases locked <;>
      simp [LinuxSharedMutex.Release, LinuxSharedMutex.Unlock, SharedRegion.Get,
        SharedRegion.read, SharedRegion.Destroy, SharedRegion.Unmap, shm_unlink, munmap,
        ShmOS.store, ShmOS.HasFile, hmem, hd, hlt]
  · have hne : ¬ l.counter = 1 := fun h => hd (hone h)
    cases locked <;>
      simp [LinuxSharedMutex.Release, LinuxSharedMutex.Unlock, SharedRegion.Get,
        SharedRegion.read, SharedRegion.Destroy, SharedRegion.Unmap, shm_unlink, munmap,
        ShmOS.store, ShmOS.HasFile, hmem, hd, hne] <;>
      exact htwo

/-- Witness of C3: `Test_SingleMutex_OnRelease_DeletesShare`, the sole holder of `SHARE_1`
(counter 1) releases and the pseudo-file is gone; and
`Test_SingleMutex_CounterIsTwo_OnRelease_DoesNotDeleteShare`, with counter 2 the
pseudo-file stays. -/
theorem Release_deletes_iff_last_witness :
    (LinuxSharedMutex.new "SHARE_1" 60000 4000000 ShmOS.empty ⟨true, true, true⟩).1 = some mutex1 ∧
      mutex1._share.Get = some 0 ∧
      (regionWith ⟨false, 1, 4000000⟩).HasFile "SHARE_1" = true ∧
      (mutex1.Release (regionWith ⟨false, 1, 4000000⟩)).2.HasFile "SHARE_1" = false ∧
      (mutex1.Release (regionWith ⟨false, 2, 4000000⟩)).2.HasFile "SHARE_1" = true :=
  ⟨by decide, by decide, by decide,
    ((Release_deletes_iff_last mutex1 (regionWith ⟨false, 1, 4000000⟩) 0
      ⟨false, 1, 4000000⟩ (by decide) (by decide) (by decide)).2.2.1 rfl).2,
    (Release_deletes_iff_last mutex1 (regionWith ⟨false, 2, 4000000⟩) 0
      ⟨false, 2, 4000000⟩ (by decide) (by decide) (by decide)).2.1.2
      ⟨by decide, by decide⟩⟩

end LinuxInterprocessMutex
